import Mathlib

/-!
Shallow embedding of the `community/authentication` sign-up subsystem
(`forms.py`, `models.py`): the `User` record, the four custom field
validators, the `SignUpForm` validation pipeline (Django `full_clean`
semantics: per-field cleaning, `clean_password` hook, final `clean`),
and the `SignUpForm.save` operation over an explicit user store.
-/

namespace Community

/-- Error taxonomy of the sign-up validation layer (section 7 of the spec):
each constructor embeds one `ValidationError` message raised in `forms.py`,
plus the framework-level required-field and max-length failures configured
on the form fields. -/
inductive ValErr where
  | reservedWord
  | invalidCharacter
  | duplicateUsername
  | duplicateEmail
  | passwordMismatch
  | requiredField
  | maxLengthExceeded
deriving Repr, DecidableEq

/-- Embeds the `User` model (`models.py`): username, email, password plus
the three boolean flags.  `password` is inherited from `AbstractBaseUser`
in the source; it is stored as a plain string holding the hash. -/
structure UserRec where
  username : String
  email : String
  password : String
  is_admin : Bool
  is_staff : Bool
  is_active : Bool
deriving Repr, DecidableEq

/-- The persisted user store (the database table behind `User.objects`). -/
abbrev Store := List UserRec

/-- Embeds the Python `str.lower()` primitive used by the validators and
the `iexact` lookups, character by character (the identifiers involved are
ASCII, where `Char.toLower` agrees with Python). -/
def lowerStr (s : String) : String :=
  ⟨s.data.map Char.toLower⟩

/-- Embeds the Python `c in s` membership test on strings, for a single
character. -/
def containsChar (s : String) (c : Char) : Bool :=
  s.data.contains c

/-- Embeds the whitespace stripping Django `forms.CharField` applies to
every submitted value (`strip=True`, the default, mirroring Python
`str.strip()`). -/
def stripStr (s : String) : String :=
  ⟨((s.data.dropWhile Char.isWhitespace).reverse.dropWhile
      Char.isWhitespace).reverse⟩

/-- Case-insensitive exact match: embeds the Django `iexact` lookup used by
`User.objects.filter(...__iexact=value)`. -/
def iexact (a b : String) : Bool :=
  lowerStr a == lowerStr b

/-- The fixed denylist of reserved usernames, transcribed verbatim from the
set literal in `forbidden_username_validator` (`forms.py`), in source order;
the source literal repeats "authentication" and "blogs", which a set
collapses, so membership is unaffected. -/
def forbidden_usernames : List String :=
  [ "admin", "settings", "news", "about", "help", "signin", "signup",
    "signout", "terms", "privacy", "cookie", "new", "login", "logout",
    "administrator", "join", "account", "username", "root", "blog",
    "authentication", "users", "billing", "subscribe", "reviews", "review",
    "blogs", "edit", "mail", "email", "home", "job", "jobs", "contribute",
    "newsletter", "shop", "profile", "register", "authentication",
    "campaign", ".env", "delete", "remove", "forum", "forums",
    "download", "downloads", "contact", "blogs", "feed", "feeds", "faq",
    "intranet", "log", "registration", "search", "explore", "rss",
    "support", "status", "static", "media", "setting", "css", "js",
    "follow", "activity", "questions", "articles", "network" ]

/-- Embeds `forbidden_username_validator`: raises `ReservedWordError` when
the case-folded value is in the denylist, otherwise returns normally
(`none`). -/
def forbidden_username_validator (value : String) : Option ValErr :=
  if forbidden_usernames.contains (lowerStr value) then
    some .reservedWord
  else
    none

/-- Embeds `invalid_username_validator`: raises `InvalidCharacterError`
when the value contains one of the characters rejected by the source
(`'@' in value or '+' in value or '-' in value`). -/
def invalid_username_validator (value : String) : Option ValErr :=
  if containsChar value '@' || containsChar value '+' ||
      containsChar value '-' then
    some .invalidCharacter
  else
    none

/-- Embeds `unique_email_validator`: raises `DuplicateEmailError` when
`User.objects.filter(email__iexact=value).exists()`. -/
def unique_email_validator (store : Store) (value : String) : Option ValErr :=
  if store.any (fun u => iexact u.email value) then
    some .duplicateEmail
  else
    none

/-- Embeds `unique_username_ignore_case_validator`: raises
`DuplicateUsernameError` when
`User.objects.filter(username__iexact=value).exists()`. -/
def unique_username_ignore_case_validator (store : Store) (value : String) :
    Option ValErr :=
  if store.any (fun u => iexact u.username value) then
    some .duplicateUsername
  else
    none

/-- Embeds Django `MaxLengthValidator(limit)` attached to a `CharField`
with `max_length=limit`: fails when the value is longer than the limit. -/
def max_length_validator (limit : Nat) (value : String) : Option ValErr :=
  if limit < value.length then
    some .maxLengthExceeded
  else
    none

/-- A field validator as run by the form: it reads the store and the field
value, returns either an error or success, and passes the store through so
that any write it performed would be visible. -/
abbrev FieldValidator := Store → String → Option ValErr × Store

/-- `forbidden_username_validator` lifted to the store-passing shape: the
source function never touches the database. -/
def vForbidden : FieldValidator := fun s value =>
  (forbidden_username_validator value, s)

/-- `invalid_username_validator` lifted to the store-passing shape: the
source function never touches the database. -/
def vInvalid : FieldValidator := fun s value =>
  (invalid_username_validator value, s)

/-- `unique_username_ignore_case_validator` lifted to the store-passing
shape: the source function performs a read-only `exists()` query. -/
def vUniqueUsername : FieldValidator := fun s value =>
  (unique_username_ignore_case_validator s value, s)

/-- `unique_email_validator` lifted to the store-passing shape: the source
function performs a read-only `exists()` query. -/
def vUniqueEmail : FieldValidator := fun s value =>
  (unique_email_validator s value, s)

/-- `MaxLengthValidator` lifted to the store-passing shape. -/
def vMaxLength (limit : Nat) : FieldValidator := fun s value =>
  (max_length_validator limit value, s)

/-- Embeds Django `Field.run_validators`: every validator in the chain is
run (no short-circuit on the first failure) and all failures are
accumulated in chain order. -/
def run_validators (vs : List FieldValidator) (s : Store) (value : String) :
    List ValErr × Store :=
  match vs with
  | [] => ([], s)
  | f :: rest =>
    let r := f s value
    let rs := run_validators rest r.2 value
    (r.1.toList ++ rs.1, rs.2)

/-- The validator chain of the `username` field: the `MaxLengthValidator`
coming from `max_length=30` on the form field, followed by the three
custom validators appended in `SignUpForm.__init__`, in source order. -/
def username_validators : List FieldValidator :=
  [ vMaxLength 30, vForbidden, vInvalid, vUniqueUsername ]

/-- The validator chain of the `email` field: the `MaxLengthValidator`
coming from `max_length=75`, followed by `unique_email_validator` appended
in `SignUpForm.__init__`.  The framework `EmailValidator` (syntax check)
is framework code outside this repository and orthogonal to every claim;
it is not embedded. -/
def email_validators : List FieldValidator :=
  [ vMaxLength 75, vUniqueEmail ]

/-- Raw form submission: the four bound fields of `SignUpForm`. -/
structure RawInput where
  username : String
  email : String
  password : String
  confirm_password : String
deriving Repr, DecidableEq

/-- Embeds the cleaning of one required `CharField` inside
`BaseForm._clean_fields`: the widget value is stripped (`strip=True`
default), an empty value yields the required-field error and no cleaned
value, otherwise every validator of the chain runs and the cleaned value
is recorded only when no validator failed. -/
def clean_char_field (vs : List FieldValidator) (s : Store) (raw : String) :
    Option String × List ValErr × Store :=
  let value := stripStr raw
  if value == "" then
    (none, [ValErr.requiredField], s)
  else
    let r := run_validators vs s value
    if r.1.isEmpty then (some value, [], r.2) else (none, r.1, r.2)

/-- Embeds the truthiness test and comparison in
`SignUpForm.clean_password`:
`if password and confirm_password and password != confirm_password`.
A field missing from `cleaned_data` reads as `None` (falsy); an empty
string is falsy as well. -/
def clean_password_mismatch (p c : Option String) : Bool :=
  match p, c with
  | some ps, some cs => ps != "" && cs != "" && ps != cs
  | _, _ => false

/-- The outcome of `SignUpForm` validation: per-field error lists (the
form `errors` dict) and the `cleaned_data` entries, with the store passed
through. -/
structure FormResult where
  errors_username : List ValErr
  errors_email : List ValErr
  errors_password : List ValErr
  errors_confirm_password : List ValErr
  cleaned_username : Option String
  cleaned_email : Option String
  cleaned_password : Option String
  cleaned_confirm_password : Option String
  store : Store
deriving Repr, DecidableEq

/-- Embeds `BaseForm.full_clean` for `SignUpForm`.  Fields are cleaned in
`Meta.fields` order: `username`, `email`, `password`, `confirm_password`.
After cleaning `password`, the framework calls the `clean_password` hook;
at that point `confirm_password` is not yet in `cleaned_data`, so the hook
reads `None` for it and never flags a mismatch there.  After all fields,
`_clean_form` runs `SignUpForm.clean`, which calls `clean_password` again:
now both values are available and a mismatch adds `PasswordMismatchError`
to `confirm_password` (and `add_error` removes that field from
`cleaned_data`). -/
def full_clean (s : Store) (raw : RawInput) : FormResult :=
  let fu := clean_char_field username_validators s raw.username
  let fe := clean_char_field email_validators fu.2.2 raw.email
  let fp := clean_char_field [] fe.2.2 raw.password
  let hook1 := clean_password_mismatch fp.1 none
  let fc := clean_char_field [] fp.2.2 raw.confirm_password
  let hook2 := clean_password_mismatch fp.1 fc.1
  { errors_username := fu.2.1
    errors_email := fe.2.1
    errors_password := fp.2.1
    errors_confirm_password :=
      fc.2.1 ++ (if hook1 || hook2 then [ValErr.passwordMismatch] else [])
    cleaned_username := fu.1
    cleaned_email := fe.1
    cleaned_password := fp.1
    cleaned_confirm_password := if hook2 then none else fc.1
    store := fc.2.2 }

/-- The form is invalid when some field carries an error. -/
def hasErrors (r : FormResult) : Bool :=
  !r.errors_username.isEmpty || !r.errors_email.isEmpty ||
  !r.errors_password.isEmpty || !r.errors_confirm_password.isEmpty

/-- Modelled from the spec: the framework salt generator used by
`set_password` (not in `src/`); salt generation is nondeterministic
framework code, modelled as a fixed dollar-free token. -/
def generate_salt : String := "x9kq"

/-- Modelled from the spec: the digest part of the framework password
hasher used by `set_password` (not in `src/`).  It is a function of salt
and plaintext, as the spec requires; cryptographic one-wayness is a
property no executable embedding can exhibit and is not modelled. -/
def hashDigest (salt plaintext : String) : String :=
  salt ++ "/" ++ plaintext

/-- Modelled from the spec: `make_password` of the framework default
hasher — the stored value is `algorithm$salt$digest`, never the raw
plaintext. -/
def make_password (salt plaintext : String) : String :=
  "pbkdf2_sha256" ++ "$" ++ salt ++ "$" ++ hashDigest salt plaintext

/-- Modelled from the spec: `check_password(plaintext, stored)` — the
salt is recovered from the stored value (here the modelled constant) and
the digest is recomputed and compared. -/
def check_password (plaintext stored : String) : Bool :=
  stored == make_password generate_salt plaintext

/-- Embeds `user.set_password(plaintext)` from `AbstractBaseUser`:
replaces the password field with the salted hash. -/
def set_password (u : UserRec) (plaintext : String) : UserRec :=
  { u with password := make_password generate_salt plaintext }

/-- The storage-layer exception raised by the unique indexes on
`username` and `email` (`unique=True` in `models.py`) when an insert
violates them: the raw `IntegrityError`, before any mapping to the
validation taxonomy. -/
inductive StorageError where
  | integrityUsername
  | integrityEmail
deriving Repr, DecidableEq

/-- Embeds the database insert performed by `user.save()`: the `User`
model declares `username` and `email` as `unique=True`, so the store
rejects an exact duplicate of either with an `IntegrityError`. -/
def db_insert (s : Store) (u : UserRec) : Except StorageError Store :=
  if s.any (fun v => v.username == u.username) then
    .error .integrityUsername
  else if s.any (fun v => v.email == u.email) then
    .error .integrityEmail
  else
    .ok (u :: s)

/-- Result of `SignUpForm.save`: either the returned user together with
the store after the operation, or a storage exception that the method let
propagate (there is no handler in the source). -/
inductive SaveResult where
  | ok (u : UserRec) (s : Store)
  | storageError (e : StorageError)
deriving Repr, DecidableEq

/-- Embeds `SignUpForm.save(commit)` line by line:
`user = super().save(commit=False)` builds the instance from
`cleaned_data` (flags keep their model defaults) without touching the
database; `user.set_password(self.cleaned_data["password"])` replaces the
plaintext with the hash; then `user.save()` runs unconditionally — the
`commit` parameter is accepted but never consulted anywhere in the
body. -/
def signup_save (s : Store) (username email password : String)
    (commit : Bool) : SaveResult :=
  let user : UserRec :=
    { username := username, email := email, password := password,
      is_admin := false, is_staff := false, is_active := true }
  let user := set_password user password
  match db_insert s user with
  | .error e => SaveResult.storageError e
  | .ok s2 => SaveResult.ok user s2

/-- Outcome of one whole sign-up submission (the view calls `is_valid`
then `form.save()`). -/
inductive SignUpOutcome where
  | invalid (r : FormResult)
  | ok (u : UserRec) (s : Store)
  | storageError (e : StorageError)
deriving Repr, DecidableEq

/-- One whole sign-up submission: validate, and on success run
`SignUpForm.save` with the default `commit=True` on the cleaned data. -/
def sign_up (s : Store) (raw : RawInput) : SignUpOutcome :=
  let r := full_clean s raw
  if hasErrors r then
    .invalid r
  else
    match signup_save r.store (r.cleaned_username.getD "")
        (r.cleaned_email.getD "") (r.cleaned_password.getD "") true with
    | .ok u s2 => .ok u s2
    | .storageError e => .storageError e

/-- A store state with one persisted user whose username contains a dash
and whose email is an upper-case variant, used to exhibit multi-error
aggregation. -/
def demoStore : Store :=
  [{ username := "X-Y", email := "A@B.COM", password := "h",
     is_admin := false, is_staff := false, is_active := true }]

/-- A raw submission that violates several validators at once against
`demoStore`: the username has an invalid character and collides
case-insensitively, the email collides case-insensitively, and the two
passwords differ. -/
def demoRaw : RawInput :=
  { username := "x-y", email := "a@b.com", password := "p1",
    confirm_password := "p2" }

/-- The record produced by a sign-up of alice2 with password p1: the
password field holds the salted hash, the flags keep their model
defaults. -/
def alice2Hashed : UserRec :=
  { username := "alice2", email := "alice2@example.com",
    password := make_password generate_salt "p1",
    is_admin := false, is_staff := false, is_active := true }

/-- A user already persisted in the store, standing for a concurrent
sign-up that won the race between validation and save. -/
def bobStored : UserRec :=
  { username := "bob", email := "b@x.com", password := "stored-hash",
    is_admin := false, is_staff := false, is_active := true }

/-! Helper lemmas: the validator chains and the field-cleaning step pass
the store through unchanged, and each error and cleaned-data component of
`full_clean` is characterised in terms of its own raw field alone. -/

theorem run_validators_username_store (s : Store) (v : String) :
    (run_validators username_validators s v).2 = s := rfl

theorem run_validators_email_store (s : Store) (v : String) :
    (run_validators email_validators s v).2 = s := rfl

theorem ccf_store (vs : List FieldValidator)
    (h : ∀ s v, (run_validators vs s v).2 = s) (s : Store) (raw : String) :
    (clean_char_field vs s raw).2.2 = s := by
  simp only [clean_char_field]
  split
  · rfl
  · split <;> simp [h]

theorem ccf_username_store (s : Store) (raw : String) :
    (clean_char_field username_validators s raw).2.2 = s :=
  ccf_store username_validators run_validators_username_store s raw

theorem ccf_email_store (s : Store) (raw : String) :
    (clean_char_field email_validators s raw).2.2 = s :=
  ccf_store email_validators run_validators_email_store s raw

theorem ccf_nil_eq (s : Store) (raw : String) :
    clean_char_field [] s raw =
      if stripStr raw == "" then (none, [ValErr.requiredField], s)
      else (some (stripStr raw), [], s) := by
  simp [clean_char_field, run_validators]

theorem ccf_nil_store (s : Store) (raw : String) :
    (clean_char_field [] s raw).2.2 = s := by
  rw [ccf_nil_eq]; split <;> rfl

theorem full_clean_store_eq (s : Store) (raw : RawInput) :
    (full_clean s raw).store = s := by
  simp only [full_clean]
  rw [ccf_username_store, ccf_email_store, ccf_nil_store, ccf_nil_store]

theorem full_clean_errors_username_eq (s : Store) (raw : RawInput) :
    (full_clean s raw).errors_username =
      (clean_char_field username_validators s raw.username).2.1 := rfl

theorem full_clean_errors_email_eq (s : Store) (raw : RawInput) :
    (full_clean s raw).errors_email =
      (clean_char_field email_validators s raw.email).2.1 := by
  simp only [full_clean]
  rw [ccf_username_store]

theorem full_clean_errors_password_eq (s : Store) (raw : RawInput) :
    (full_clean s raw).errors_password =
      if stripStr raw.password == "" then [ValErr.requiredField] else [] := by
  simp only [full_clean]
  rw [ccf_username_store, ccf_email_store, ccf_nil_eq]
  split <;> rfl

theorem full_clean_errors_confirm_eq (s : Store) (raw : RawInput) :
    (full_clean s raw).errors_confirm_password =
      (if stripStr raw.confirm_password == "" then [ValErr.requiredField]
        else []) ++
      (if stripStr raw.password != "" && stripStr raw.confirm_password != "" &&
          stripStr raw.password != stripStr raw.confirm_password then
        [ValErr.passwordMismatch] else []) := by
  simp only [full_clean]
  rw [ccf_username_store, ccf_email_store, ccf_nil_eq, ccf_nil_eq]
  by_cases hp : stripStr raw.password = "" <;>
    by_cases hc : stripStr raw.confirm_password = "" <;>
      simp [hp, hc, clean_password_mismatch]

theorem full_clean_cleaned_password_eq (s : Store) (raw : RawInput) :
    (full_clean s raw).cleaned_password =
      if stripStr raw.password == "" then none
      else some (stripStr raw.password) := by
  simp only [full_clean]
  rw [ccf_username_store, ccf_email_store, ccf_nil_eq]
  split <;> rfl

theorem signup_save_ok_spec (s : Store) (username email password : String)
    (u : UserRec) (s2 : Store)
    (h : signup_save s username email password true = SaveResult.ok u s2) :
    u ∈ s2 ∧ u.password ≠ password ∧
      check_password password u.password = true := by
  simp only [signup_save] at h
  split at h
  · simp at h
  next s3 heq =>
    rw [SaveResult.ok.injEq] at h
    obtain ⟨rfl, rfl⟩ := h
    refine ⟨?_, ?_, ?_⟩
    · unfold db_insert at heq
      split at heq
      · simp at heq
      · split at heq
        · simp at heq
        · rw [Except.ok.injEq] at heq
          rw [← heq]
          exact List.mem_cons_self _ _
    · intro hbad
      have hlen := congrArg String.length hbad
      simp only [set_password, make_password, hashDigest,
        String.length_append] at hlen
      have l1 : ("pbkdf2_sha256" : String).length = 13 := rfl
      have l2 : ("$" : String).length = 1 := rfl
      have l3 : generate_salt.length = 4 := rfl
      have l4 : ("/" : String).length = 1 := rfl
      rw [l1, l2, l3, l4] at hlen
      omega
    · simp [check_password, set_password]

/-! The claim theorems. -/

/-- C1: the claim states that `SignUpForm.save` with `commit = false`
returns the populated instance without persisting it.  The code violates
this: the method body calls `user.save()` unconditionally and never reads
its `commit` parameter, so even with `commit = false` the record is
inserted into the store (here: the store goes from empty to holding the
new record).  The returned entity does hold the hash, as the claim
says. -/
theorem save_ignores_commit_false :
    signup_save [] "alice2" "alice2@example.com" "p1" false =
      SaveResult.ok alice2Hashed [alice2Hashed] ∧
    ([alice2Hashed] : Store) ≠ [] :=
  ⟨rfl, by simp⟩

/-- C2: the claim states that a storage-layer uniqueness violation raised
during save is caught and re-raised as the corresponding duplicate error.
The code violates this: `SignUpForm.save` contains no handler, so when the
store already holds a conflicting user (the check-then-write race) the raw
storage `IntegrityError` propagates to the caller instead of a
`DuplicateUsernameError`. -/
theorem save_lets_integrity_error_propagate :
    signup_save [bobStored] "bob" "bob2@x.com" "pw" true =
      SaveResult.storageError StorageError.integrityUsername := rfl

/-- C3: `forbidden_username_validator` fails with the reserved-word error
exactly when the case-folded value is a member of the fixed denylist, and
succeeds exactly when it is not; the denylist contains admin, login,
signup and faq; and the sign-up scenario with username admin fails with
the reserved-word error on the username field. -/
theorem forbidden_username_validator_spec :
    (∀ v : String, forbidden_username_validator v = some ValErr.reservedWord ↔
      lowerStr v ∈ forbidden_usernames) ∧
    (∀ v : String, forbidden_username_validator v = none ↔
      lowerStr v ∉ forbidden_usernames) ∧
    "admin" ∈ forbidden_usernames ∧ "login" ∈ forbidden_usernames ∧
    "signup" ∈ forbidden_usernames ∧ "faq" ∈ forbidden_usernames ∧
    (full_clean [] ⟨"admin", "a@b.com", "x", "x"⟩).errors_username =
      [ValErr.reservedWord] := by
  refine ⟨fun v => ?_, fun v => ?_, by decide, by decide, by decide,
    by decide, by decide⟩
  · unfold forbidden_username_validator
    split <;> simp_all
  · unfold forbidden_username_validator
    split <;> simp_all

/-- C4: `invalid_username_validator` fails with the invalid-character
error exactly when the value contains at least one of the characters at,
plus or dash, and succeeds exactly when it contains none of them. -/
theorem invalid_username_validator_spec (v : String) :
    (invalid_username_validator v = some ValErr.invalidCharacter ↔
      ('@' ∈ v.data ∨ '+' ∈ v.data ∨ '-' ∈ v.data)) ∧
    (invalid_username_validator v = none ↔
      ¬('@' ∈ v.data ∨ '+' ∈ v.data ∨ '-' ∈ v.data)) := by
  have hmem : (containsChar v '@' || containsChar v '+' ||
      containsChar v '-') = true ↔
      ('@' ∈ v.data ∨ '+' ∈ v.data ∨ '-' ∈ v.data) := by
    simp [containsChar, or_assoc]
  unfold invalid_username_validator
  split <;> simp_all

/-- C5: form validation attaches the password-mismatch error to the
confirm-password field exactly when both stripped passwords are non-empty
and differ; the mismatch error never lands on the password field; and an
empty password or confirm-password yields only the required-field
failure on that field. -/
theorem password_mismatch_spec (s : Store) (raw : RawInput) :
    (ValErr.passwordMismatch ∈ (full_clean s raw).errors_confirm_password ↔
      (stripStr raw.password ≠ "" ∧ stripStr raw.confirm_password ≠ "" ∧
        stripStr raw.password ≠ stripStr raw.confirm_password)) ∧
    (ValErr.passwordMismatch ∉ (full_clean s raw).errors_password) ∧
    (stripStr raw.password = "" →
      (full_clean s raw).errors_password = [ValErr.requiredField]) ∧
    (stripStr raw.confirm_password = "" →
      (full_clean s raw).errors_confirm_password = [ValErr.requiredField]) := by
  rw [full_clean_errors_confirm_eq, full_clean_errors_password_eq]
  by_cases hp : stripStr raw.password = "" <;>
    by_cases hc : stripStr raw.confirm_password = "" <;>
      by_cases hpc : stripStr raw.password = stripStr raw.confirm_password <;>
        simp [hp, hc, hpc]

/-- C6: for every store state and value, the case-insensitive username
uniqueness validator fails with the duplicate-username error exactly when
some persisted user matches the value case-insensitively, and the email
uniqueness validator fails with the duplicate-email error exactly when
some persisted user matches on email; each succeeds exactly when no such
user exists. -/
theorem unique_validators_spec (s : Store) (v : String) :
    (unique_username_ignore_case_validator s v =
        some ValErr.duplicateUsername ↔
      ∃ u ∈ s, lowerStr u.username = lowerStr v) ∧
    (unique_username_ignore_case_validator s v = none ↔
      ¬∃ u ∈ s, lowerStr u.username = lowerStr v) ∧
    (unique_email_validator s v = some ValErr.duplicateEmail ↔
      ∃ u ∈ s, lowerStr u.email = lowerStr v) ∧
    (unique_email_validator s v = none ↔
      ¬∃ u ∈ s, lowerStr u.email = lowerStr v) := by
  have hU : (s.any fun u => iexact u.username v) = true ↔
      ∃ u ∈ s, lowerStr u.username = lowerStr v := by
    simp [List.any_eq_true, iexact]
  have hE : (s.any fun u => iexact u.email v) = true ↔
      ∃ u ∈ s, lowerStr u.email = lowerStr v := by
    simp [List.any_eq_true, iexact]
  unfold unique_username_ignore_case_validator unique_email_validator
  refine ⟨?_, ?_, ?_, ?_⟩ <;> split <;> simp_all

/-- C7: validation does not short-circuit: the error list of each field is
a function of that field alone (so a failure on an earlier field never
suppresses the checks of a later one), and on a submission violating
several validators at once the form reports every failure — here two
errors accumulate on the username field while the email and
confirm-password fields report their own failures in the same run. -/
theorem validation_aggregates_failures :
    (∀ (s : Store) (r1 r2 : RawInput), r1.username = r2.username →
      (full_clean s r1).errors_username = (full_clean s r2).errors_username) ∧
    (∀ (s : Store) (r1 r2 : RawInput), r1.email = r2.email →
      (full_clean s r1).errors_email = (full_clean s r2).errors_email) ∧
    (∀ (s : Store) (r1 r2 : RawInput), r1.password = r2.password →
      (full_clean s r1).errors_password = (full_clean s r2).errors_password) ∧
    (full_clean demoStore demoRaw).errors_username =
      [ValErr.invalidCharacter, ValErr.duplicateUsername] ∧
    (full_clean demoStore demoRaw).errors_email = [ValErr.duplicateEmail] ∧
    (full_clean demoStore demoRaw).errors_confirm_password =
      [ValErr.passwordMismatch] := by
  refine ⟨?_, ?_, ?_, by decide, by decide, by decide⟩
  · intro s r1 r2 h
    rw [full_clean_errors_username_eq, full_clean_errors_username_eq, h]
  · intro s r1 r2 h
    rw [full_clean_errors_email_eq, full_clean_errors_email_eq, h]
  · intro s r1 r2 h
    rw [full_clean_errors_password_eq, full_clean_errors_password_eq, h]

/-- C8: after every successful sign-up the persisted record is in the
store, its password field differs from the submitted (stripped) plaintext,
and a credential check of the record against that plaintext succeeds. -/
theorem password_roundtrip_after_signup (st : Store) (raw : RawInput)
    (u : UserRec) (s2 : Store) (h : sign_up st raw = SignUpOutcome.ok u s2) :
    u ∈ s2 ∧ u.password ≠ stripStr raw.password ∧
      check_password (stripStr raw.password) u.password = true := by
  simp only [sign_up] at h
  split at h
  · simp at h
  next hval =>
    split at h
    next u2 s3 hsave =>
      rw [SignUpOutcome.ok.injEq] at h
      obtain ⟨rfl, rfl⟩ := h
      by_cases hps : stripStr raw.password = ""
      · exfalso
        apply hval
        simp [hasErrors, full_clean_errors_password_eq, hps]
      · rw [full_clean_cleaned_password_eq, if_neg (by simpa using hps),
          full_clean_store_eq, Option.getD_some] at hsave
        exact signup_save_ok_spec st _ _ _ u2 s3 hsave
    next e heq => simp at h

/-- C8 witness: the round-trip theorem applied to the concrete successful
sign-up of alice2 with password p1 on the empty store. -/
theorem password_roundtrip_after_signup_witness :
    alice2Hashed ∈ [alice2Hashed] ∧
      alice2Hashed.password ≠ stripStr "p1" ∧
      check_password (stripStr "p1") alice2Hashed.password = true :=
  password_roundtrip_after_signup []
    ⟨"alice2", "alice2@example.com", "p1", "p1"⟩ alice2Hashed [alice2Hashed]
    (by decide)

/-- C9: validation is deterministic and idempotent: a second run of the
form validation on the same raw input, against the store left behind by
the first run, produces exactly the same result (in particular the same
error sets), because validation never changes the store. -/
theorem full_clean_idempotent (s : Store) (raw : RawInput) :
    full_clean (full_clean s raw).store raw = full_clean s raw := by
  rw [full_clean_store_eq]

/-- C10: running the field validators never modifies the user store: each
of the four validators returns the store unchanged whether it succeeds or
fails, and a whole validation pass leaves the store exactly as it was —
only the save operation writes. -/
theorem validators_readonly :
    (∀ (s : Store) (v : String), (vForbidden s v).2 = s) ∧
    (∀ (s : Store) (v : String), (vInvalid s v).2 = s) ∧
    (∀ (s : Store) (v : String), (vUniqueUsername s v).2 = s) ∧
    (∀ (s : Store) (v : String), (vUniqueEmail s v).2 = s) ∧
    (∀ (s : Store) (raw : RawInput), (full_clean s raw).store = s) :=
  ⟨fun _ _ => rfl, fun _ _ => rfl, fun _ _ => rfl, fun _ _ => rfl,
    full_clean_store_eq⟩

end Community

